import Mathlib

/-!
Verification of `psutil/arch/openbsd/openbsd.h` (OpenBSD process-introspection
bindings of psutil).

The repository fragment is a declaration header: it fixes the C signatures of
ten functions but contains no bodies.  This development has two layers.

1. A faithful transcription of the header's declarations (names, pid-parameter
   types, count-out-parameter types, return types, and the CPython
   `(self, args)` calling convention) as data, used to settle the signature
   level claims.

2. Behavioural models of the declared operations.  The bodies are not in the
   supplied source, so each behavioural definition is modelled from the spec's
   contract for that operation, over an abstract kernel state (a process table
   with per-pid accessibility, open-descriptor tables, thread tables and
   memory counters).
-/

/- ### C type widths (OpenBSD LP64: int/pid_t 32-bit, long/size_t 64-bit) -/

def INT_MAX : Nat := 2 ^ 31 - 1

def SIZE_T_MAX : Nat := 2 ^ 64 - 1

def PID_T_MIN : Int := -(2 ^ 31)

def PID_T_MAX : Int := 2 ^ 31 - 1

def LONG_MIN : Int := -(2 ^ 63)

def LONG_MAX : Int := 2 ^ 63 - 1

/-- A value fits the C `pid_t` type (`int32_t` on OpenBSD). -/
def inPidTRange (v : Int) : Prop := PID_T_MIN ≤ v ∧ v ≤ PID_T_MAX

/-- A value fits the C `long` type (64-bit on OpenBSD LP64). -/
def inLongRange (v : Int) : Prop := LONG_MIN ≤ v ∧ v ≤ LONG_MAX

instance (v : Int) : Decidable (inPidTRange v) := by
  unfold inPidTRange; infer_instance

instance (v : Int) : Decidable (inLongRange v) := by
  unfold inLongRange; infer_instance

/-- Two's-complement narrowing of a 64-bit `long` value to 32-bit `pid_t`,
as happens when a `long` pid is forwarded to a parameter declared `pid_t`. -/
def narrowToPidT (v : Int) : Int := (v + 2 ^ 31) % 2 ^ 32 - 2 ^ 31

/-- Storing a count through the `int *cnt` out-parameter of `kinfo_getfile`:
only counts up to `INT_MAX` are representable. -/
def storeInt (n : Nat) : Option Int :=
  if n ≤ INT_MAX then some (Int.ofNat n) else none

/-- Storing a count through the `size_t *procCount` out-parameter of
`psutil_get_proc_list`: counts up to `SIZE_T_MAX` are representable. -/
def storeSizeT (n : Nat) : Option Nat :=
  if n ≤ SIZE_T_MAX then some n else none

/- ### Transcription of the header's declarations -/

/-- C types appearing in the pid, count and return positions of the header's
declarations. -/
inductive CType where
  | c_int
  | c_long
  | c_pid_t
  | c_size_t
  | ptr_kinfo_file
  | ptr_char_ptr
  | ptr_pyobject
deriving Repr, DecidableEq

/-- One function declaration of `openbsd.h`: its name, the C type of its pid
parameter (if it takes one), the C type of its count out-parameter (if it has
one), its return type, and whether it uses the CPython
`(PyObject *self, PyObject *args)` calling convention. -/
structure HeaderDecl where
  name : String
  pidParam : Option CType
  countParam : Option CType
  ret : CType
  pySelfArgs : Bool
deriving Repr, DecidableEq

/-- The ten declarations of `openbsd.h`, transcribed line by line. -/
def openbsd_h_decls : List HeaderDecl :=
  [⟨"psutil_kinfo_proc", some .c_pid_t, none, .c_int, false⟩,
   ⟨"kinfo_getfile", some .c_long, some .c_int, .ptr_kinfo_file, false⟩,
   ⟨"psutil_get_proc_list", none, some .c_size_t, .c_int, false⟩,
   ⟨"_psutil_get_argv", some .c_long, none, .ptr_char_ptr, false⟩,
   ⟨"psutil_get_cmdline", some .c_long, none, .ptr_pyobject, false⟩,
   ⟨"psutil_pid_exists", some .c_long, none, .c_int, false⟩,
   ⟨"psutil_raise_ad_or_nsp", some .c_long, none, .c_int, false⟩,
   ⟨"psutil_proc_threads", none, none, .ptr_pyobject, true⟩,
   ⟨"psutil_virtual_mem", none, none, .ptr_pyobject, true⟩,
   ⟨"psutil_swap_mem", none, none, .ptr_pyobject, true⟩]

/- ### Kernel-state data model -/

/-- Process-information record (`kinfo_proc`-equivalent).  The header leaves
its fields invisible; the model keeps the pid and the per-process data the
declared operations report. -/
structure KinfoProc where
  ki_pid : Int
  ki_argv : List String
deriving Repr, DecidableEq

/-- Per-process open-file-descriptor record (`kinfo_file`-equivalent). -/
structure KinfoFile where
  kf_fd : Int
deriving Repr, DecidableEq

/-- Abstract kernel state: the live process table, per-pid caller
accessibility, per-pid open-descriptor and thread tables, and the
virtual/swap memory counters. -/
structure SysState where
  procs : List KinfoProc
  accessible : Int → Bool
  filesOf : Int → List KinfoFile
  threadsOf : Int → List (Int × Int × Int)
  vmemTotal : Int
  vmemAvail : Int
  vmemUsed : Int
  swapTotal : Int
  swapUsed : Int

/-- The pids of the live processes. -/
def livePids (s : SysState) : List Int := s.procs.map (fun p => p.ki_pid)

/-- Well-formed kernel state: at most one process per pid. -/
def SysState.WF (s : SysState) : Prop := (livePids s).Nodup

instance (s : SysState) : Decidable s.WF := by
  unfold SysState.WF; infer_instance

/-- The two variants of the runtime-level exception raised by the
permission/not-found signaling contract. -/
inductive PsutilError where
  | AccessDenied
  | NoSuchProcess
deriving Repr, DecidableEq

/- ### Behavioural models of the declared operations -/

/-- Modelled from the spec: the body of `psutil_pid_exists` is not in the
supplied source (the header declares `int psutil_pid_exists(long pid)` only).
Contract: "given a process id, report boolean liveness".  True exactly when
the pid is in the live process table. -/
def psutil_pid_exists (s : SysState) (pid : Int) : Bool :=
  (livePids s).contains pid

/-- Modelled from the spec: the body of `psutil_raise_ad_or_nsp` is not in
the supplied source.  Contract: raise a runtime-level exception
distinguishing "access denied" from "process not found"; for a pid known not
to exist, the 'not found' variant.  The variant raised is the return value. -/
def psutil_raise_ad_or_nsp (s : SysState) (pid : Int) : PsutilError :=
  if psutil_pid_exists s pid then .AccessDenied else .NoSuchProcess

/-- Modelled from the spec: the body of `psutil_kinfo_proc` is not in the
supplied source.  Contract: given a pid, populate the caller-provided
process-information record on success; on failure signal "no such process"
or "access denied".  `Except.ok` carries the populated record. -/
def psutil_kinfo_proc (s : SysState) (pid : Int) :
    Except PsutilError KinfoProc :=
  match s.procs.find? (fun p => p.ki_pid == pid) with
  | some p => if s.accessible pid then .ok p else .error .AccessDenied
  | none => .error .NoSuchProcess

/-- Modelled from the spec: the body of `psutil_get_proc_list` is not in the
supplied source.  Contract: populate a caller-provided array pointer and
count with all live processes; the count goes through a `size_t`
out-parameter.  Fails only if the count is not `size_t`-representable. -/
def psutil_get_proc_list (s : SysState) : Option (List KinfoProc × Nat) :=
  (storeSizeT s.procs.length).map (fun c => (s.procs, c))

/-- Modelled from the spec: the body of `kinfo_getfile` is not in the
supplied source.  Contract: given a pid, return an owned array of
per-descriptor records and write the number of entries through the `int *cnt`
out-parameter.  Ownership transfer is modelled by returning the array by
value; `none` models the NULL failure return. -/
def kinfo_getfile (s : SysState) (pid : Int) :
    Option (List KinfoFile × Int) :=
  if psutil_pid_exists s pid then
    (storeInt (s.filesOf pid).length).map (fun c => (s.filesOf pid, c))
  else none

/-- Modelled from the spec: the body of `_psutil_get_argv` is not in the
supplied source.  Contract: given a pid, return the process's argument
vector as an owned array of strings; `none` models the NULL failure
return. -/
def _psutil_get_argv (s : SysState) (pid : Int) : Option (List String) :=
  (s.procs.find? (fun p => p.ki_pid == pid)).map (fun p => p.ki_argv)

/-- Managed-runtime (Python) objects, as marshalled across the
foreign-function boundary. -/
inductive PyObject where
  | PyNone
  | PyBool (b : Bool)
  | PyInt (n : Int)
  | PyStr (s : String)
  | PyList (xs : List PyObject)
  | PyTuple (xs : List PyObject)

/-- A runtime sequence object (list or tuple). -/
def PyObject.isSequence : PyObject → Bool
  | .PyList _ => true
  | .PyTuple _ => true
  | _ => false

/-- Modelled from the spec: the body of `psutil_get_cmdline` is not in the
supplied source.  Contract: given a pid, return a managed-runtime sequence
object representing the command line.  The argument vector is marshalled
into a runtime list of strings; an empty list stands for a missing
argument vector. -/
def psutil_get_cmdline (s : SysState) (pid : Int) : PyObject :=
  match _psutil_get_argv s pid with
  | some argv => .PyList (argv.map PyObject.PyStr)
  | none => .PyList []

/-- Modelled from the spec: the body of `psutil_proc_threads` is not in the
supplied source; the header gives only the CPython entry-point signature
`PyObject *psutil_proc_threads(PyObject *self, PyObject *args)`, and the
spec says the internal computation is not shown.  The entry point reads the
pid from the argument tuple and marshals the thread table into a runtime
object. -/
def psutil_proc_threads (s : SysState) (self args : PyObject) : PyObject :=
  match args with
  | .PyTuple [.PyInt pid] =>
      .PyList ((s.threadsOf pid).map
        (fun t => .PyTuple [.PyInt t.1, .PyInt t.2.1, .PyInt t.2.2]))
  | _ => .PyNone

/-- Modelled from the spec: the body of `psutil_virtual_mem` is not in the
supplied source; only the CPython entry-point signature is declared, and the
spec says the internal computation is not shown.  The entry point marshals
the virtual-memory counters into a runtime object. -/
def psutil_virtual_mem (s : SysState) (self args : PyObject) : PyObject :=
  .PyTuple [.PyInt s.vmemTotal, .PyInt s.vmemAvail, .PyInt s.vmemUsed]

/-- Modelled from the spec: the body of `psutil_swap_mem` is not in the
supplied source; only the CPython entry-point signature is declared, and the
spec says the internal computation is not shown.  The entry point marshals
the swap-memory counters into a runtime object. -/
def psutil_swap_mem (s : SysState) (self args : PyObject) : PyObject :=
  .PyTuple [.PyInt s.swapTotal, .PyInt s.swapUsed]

/- ### Concrete example state for witnesses -/

def procA : KinfoProc := ⟨1, ["init"]⟩

def procB : KinfoProc := ⟨42, ["demo", "-x"]⟩

def exampleState : SysState :=
  ⟨[procA, procB], fun _ => true, fun _ => [⟨0⟩, ⟨1⟩],
   fun _ => [(7, 10, 20)], 1024, 512, 512, 256, 0⟩

/- ### Shared helper lemmas -/

/-- In a process table with no duplicate pids, `find?` by a member's pid
returns exactly that member. -/
theorem find_by_pid (p : KinfoProc) :
    ∀ l : List KinfoProc, (l.map (fun q => q.ki_pid)).Nodup → p ∈ l →
      l.find? (fun q => q.ki_pid == p.ki_pid) = some p := by
  intro l
  induction l with
  | nil => intro _ h; cases h
  | cons a l ih =>
    intro hnd hp
    rw [List.map_cons, List.nodup_cons] at hnd
    by_cases hape : a.ki_pid = p.ki_pid
    · have hap : a = p := by
        rcases List.mem_cons.mp hp with h | h
        · exact h.symm
        · exact absurd (hape ▸ List.mem_map_of_mem (fun q => q.ki_pid) h) hnd.1
      rw [List.find?_cons_of_pos]
      · rw [hap]
      · simp [hape]
    · rcases List.mem_cons.mp hp with h | h
      · exact absurd (h ▸ rfl) hape
      · rw [List.find?_cons_of_neg, ih hnd.2 h]
        simp [hape]

/- ### Claim theorems -/

/-- C1: `psutil_pid_exists` reports boolean liveness: it returns true exactly
when the given pid is in the live process table, and in particular returns
false for every pid known not to exist. -/
theorem pid_exists_reports_liveness (s : SysState) (pid : Int) :
    (pid ∉ livePids s → psutil_pid_exists s pid = false) ∧
    (psutil_pid_exists s pid = true ↔ pid ∈ livePids s) := by
  constructor
  · intro h
    simpa [psutil_pid_exists] using h
  · simp [psutil_pid_exists]

/-- Witness for C1 at a concrete state: pid 999 is not live and the
existence check returns false on it. -/
theorem pid_exists_reports_liveness_witness :
    psutil_pid_exists exampleState 999 = false :=
  (pid_exists_reports_liveness exampleState 999).1 (by decide)

/-- C2: `psutil_raise_ad_or_nsp` raises exactly one of the two variants
"access denied" / "no such process", and for a pid known not to exist it
raises the 'not found' variant and not the 'access denied' variant. -/
theorem raise_ad_or_nsp_variants (s : SysState) (pid : Int) :
    (psutil_raise_ad_or_nsp s pid = .AccessDenied ∨
      psutil_raise_ad_or_nsp s pid = .NoSuchProcess) ∧
    (pid ∉ livePids s →
      psutil_raise_ad_or_nsp s pid = .NoSuchProcess ∧
      psutil_raise_ad_or_nsp s pid ≠ .AccessDenied) := by
  constructor
  · unfold psutil_raise_ad_or_nsp
    by_cases h : psutil_pid_exists s pid <;> simp [h]
  · intro hnm
    have h : psutil_pid_exists s pid = false := by
      simpa [psutil_pid_exists] using hnm
    unfold psutil_raise_ad_or_nsp
    simp [h]

/-- Witness for C2 at a concrete state: pid 999 is not live, and the
signaling function yields the 'not found' variant there. -/
theorem raise_ad_or_nsp_variants_witness :
    psutil_raise_ad_or_nsp exampleState 999 = .NoSuchProcess ∧
    psutil_raise_ad_or_nsp exampleState 999 ≠ .AccessDenied :=
  (raise_ad_or_nsp_variants exampleState 999).2 (by decide)

/-- C3: on success `psutil_kinfo_proc` populates the record with the live
process bearing the requested pid; on failure the signalled error is one of
"no such process" / "access denied" and nothing else. -/
theorem kinfo_proc_contract (s : SysState) (pid : Int) :
    (∀ p, psutil_kinfo_proc s pid = .ok p → p ∈ s.procs ∧ p.ki_pid = pid) ∧
    (∀ e, psutil_kinfo_proc s pid = .error e →
      e = .NoSuchProcess ∨ e = .AccessDenied) := by
  constructor
  · intro p hp
    rcases hf : s.procs.find? (fun q => q.ki_pid == pid) with _ | q
    · simp only [psutil_kinfo_proc, hf] at hp
      exact absurd hp (by simp)
    · simp only [psutil_kinfo_proc, hf] at hp
      by_cases ha : s.accessible pid
      · rw [if_pos ha] at hp
        injection hp with hqp
        subst hqp
        exact ⟨List.mem_of_find?_eq_some hf, by simpa using List.find?_some hf⟩
      · rw [if_neg ha] at hp
        exact absurd hp (by simp)
  · intro e he
    rcases hf : s.procs.find? (fun q => q.ki_pid == pid) with _ | q
    · simp only [psutil_kinfo_proc, hf] at he
      injection he with h
      exact Or.inl h.symm
    · simp only [psutil_kinfo_proc, hf] at he
      by_cases ha : s.accessible pid
      · rw [if_pos ha] at he
        exact absurd he (by simp)
      · rw [if_neg ha] at he
        injection he with h
        exact Or.inr h.symm

/-- Witness for C3 at a concrete state: looking up pid 42 succeeds with the
record of the live process of pid 42. -/
theorem kinfo_proc_contract_witness :
    procB ∈ exampleState.procs ∧ procB.ki_pid = 42 :=
  (kinfo_proc_contract exampleState 42).1 procB rfl

/-- C4: `psutil_get_proc_list` yields the complete live process table with
the count equal to the number of entries, and, when pids are unique, the
array holds exactly one entry for every live process. -/
theorem get_proc_list_complete (s : SysState) (hwf : s.WF)
    (hsz : s.procs.length ≤ SIZE_T_MAX) :
    psutil_get_proc_list s = some (s.procs, s.procs.length) ∧
    ∀ pid ∈ livePids s,
      (s.procs.filter (fun p => p.ki_pid == pid)).length = 1 := by
  constructor
  · simp [psutil_get_proc_list, storeSizeT, hsz]
  · intro pid hpid
    have h1 : (s.procs.map (fun p => p.ki_pid)).count pid = 1 :=
      List.count_eq_one_of_mem hwf hpid
    calc (s.procs.filter (fun p => p.ki_pid == pid)).length
        = s.procs.countP (fun p => p.ki_pid == pid) :=
          (List.countP_eq_length_filter _ _).symm
      _ = (s.procs.map (fun p => p.ki_pid)).countP (fun x => x == pid) := by
          rw [List.countP_map]; rfl
      _ = (s.procs.map (fun p => p.ki_pid)).count pid := rfl
      _ = 1 := h1

/-- Witness for C4 at a concrete state: the two-process table is returned in
full with count 2. -/
theorem get_proc_list_complete_witness :
    psutil_get_proc_list exampleState =
      some (exampleState.procs, exampleState.procs.length) :=
  (get_proc_list_complete exampleState (by decide) (by decide)).1

/-- C5: for a live process whose descriptor count fits the `int`
out-parameter, `kinfo_getfile` returns the array of per-descriptor records
— one entry per open descriptor — with the count equal to the number of
entries; and every successful return has this shape.  Ownership transfer is
modelled by the array being returned by value to the caller. -/
theorem kinfo_getfile_contract (s : SysState) (pid : Int)
    (hlive : pid ∈ livePids s)
    (hsz : (s.filesOf pid).length ≤ INT_MAX) :
    kinfo_getfile s pid =
      some (s.filesOf pid, Int.ofNat (s.filesOf pid).length) ∧
    ∀ arr cnt, kinfo_getfile s pid = some (arr, cnt) →
      arr = s.filesOf pid ∧ cnt = Int.ofNat arr.length := by
  have hex : psutil_pid_exists s pid = true := by
    simpa [psutil_pid_exists] using hlive
  have hmain : kinfo_getfile s pid =
      some (s.filesOf pid, Int.ofNat (s.filesOf pid).length) := by
    simp [kinfo_getfile, hex, storeInt, hsz]
  refine ⟨hmain, fun arr cnt h => ?_⟩
  rw [hmain] at h
  injection h with h
  injection h with h1 h2
  exact ⟨h1.symm, by rw [← h1]; exact h2.symm⟩

/-- Witness for C5 at a concrete state: pid 1 is live with two open
descriptors, and the enumeration returns both records with count 2. -/
theorem kinfo_getfile_contract_witness :
    kinfo_getfile exampleState 1 =
      some (exampleState.filesOf 1,
        Int.ofNat (exampleState.filesOf 1).length) :=
  (kinfo_getfile_contract exampleState 1 (by decide) (by decide)).1

/-- C6: in a well-formed state, `_psutil_get_argv` applied to the pid of a
live process returns that process's argument vector. -/
theorem get_argv_returns_argv (s : SysState) (p : KinfoProc)
    (hwf : s.WF) (hp : p ∈ s.procs) :
    _psutil_get_argv s p.ki_pid = some p.ki_argv := by
  unfold _psutil_get_argv
  rw [find_by_pid p s.procs hwf hp]
  rfl

/-- Witness for C6 at a concrete state: the argument vector of the live
process of pid 42 is returned. -/
theorem get_argv_returns_argv_witness :
    _psutil_get_argv exampleState procB.ki_pid = some procB.ki_argv :=
  get_argv_returns_argv exampleState procB (by decide) (by decide)

/-- C7: `psutil_get_cmdline` always returns a managed-runtime sequence
object, and in a well-formed state, for the pid of a live process, that
sequence is the runtime list of the process's command-line strings. -/
theorem get_cmdline_contract (s : SysState) (pid : Int) :
    (psutil_get_cmdline s pid).isSequence = true ∧
    (∀ p, s.WF → p ∈ s.procs → p.ki_pid = pid →
      psutil_get_cmdline s pid = .PyList (p.ki_argv.map PyObject.PyStr)) := by
  constructor
  · unfold psutil_get_cmdline
    rcases _psutil_get_argv s pid with _ | argv <;> rfl
  · intro p hwf hp hpid
    subst hpid
    unfold psutil_get_cmdline _psutil_get_argv
    rw [find_by_pid p s.procs hwf hp]
    rfl

/-- Witness for C7 at a concrete state: the command line of pid 42 is the
runtime list of its two argument strings. -/
theorem get_cmdline_contract_witness :
    psutil_get_cmdline exampleState 42 =
      .PyList (procB.ki_argv.map PyObject.PyStr) :=
  (get_cmdline_contract exampleState 42).2 procB (by decide) (by decide) rfl

/-- C8: thread enumeration, virtual-memory statistics and swap-memory
statistics are exactly the declarations of the header exposed through the
CPython `(PyObject *self, PyObject *args)` entry-point convention, and each
of them returns a runtime object (`PyObject *`). -/
theorem entry_points_runtime_callable :
    (openbsd_h_decls.filter (fun d => d.pySelfArgs)).map
        (fun d => (d.name, d.ret)) =
      [("psutil_proc_threads", CType.ptr_pyobject),
       ("psutil_virtual_mem", CType.ptr_pyobject),
       ("psutil_swap_mem", CType.ptr_pyobject)] := by
  decide

/-- C9: the header declares `kinfo_getfile`'s count out-parameter as signed
`int` and `psutil_get_proc_list`'s as `size_t`; consequently every
descriptor count `kinfo_getfile` reports is bounded by `INT_MAX`, while the
process-list enumeration can report counts exceeding `INT_MAX`. -/
theorem descriptor_count_int_bounded :
    ((openbsd_h_decls.find? (fun d => d.name == "kinfo_getfile")).map
        (fun d => d.countParam) = some (some .c_int)) ∧
    ((openbsd_h_decls.find? (fun d => d.name == "psutil_get_proc_list")).map
        (fun d => d.countParam) = some (some .c_size_t)) ∧
    (∀ s pid arr cnt, kinfo_getfile s pid = some (arr, cnt) →
      arr.length ≤ INT_MAX) ∧
    (∃ s : SysState, psutil_get_proc_list s =
        some (s.procs, s.procs.length) ∧ INT_MAX < s.procs.length) := by
  refine ⟨by decide, by decide, ?_, ?_⟩
  · intro s pid arr cnt h
    unfold kinfo_getfile at h
    by_cases hex : psutil_pid_exists s pid
    · rw [if_pos hex] at h
      unfold storeInt at h
      by_cases hsz : (s.filesOf pid).length ≤ INT_MAX
      · rw [if_pos hsz] at h
        simp only [Option.map_some'] at h
        injection h with h
        injection h with h1 _
        rw [← h1]
        exact hsz
      · rw [if_neg hsz] at h
        simp at h
    · rw [if_neg hex] at h
      simp at h
  · refine ⟨⟨List.replicate (INT_MAX + 1) procA, fun _ => true, fun _ => [],
      fun _ => [], 0, 0, 0, 0, 0⟩, ?_, ?_⟩
    · show (storeSizeT (List.replicate (INT_MAX + 1) procA).length).map _ = _
      rw [List.length_replicate]
      unfold storeSizeT
      rw [if_pos (by norm_num [INT_MAX, SIZE_T_MAX])]
      rfl
    · show INT_MAX < (List.replicate (INT_MAX + 1) procA).length
      rw [List.length_replicate]
      omega

/-- Witness for C9: a concrete successful `kinfo_getfile` call whose
descriptor array length is within the signed-int bound. -/
theorem descriptor_count_int_bounded_witness :
    (exampleState.filesOf 1).length ≤ INT_MAX :=
  descriptor_count_int_bounded.2.2.1 exampleState 1 (exampleState.filesOf 1)
    (Int.ofNat (exampleState.filesOf 1).length) (by decide)

/-- C10: `psutil_kinfo_proc` is the only declaration taking the pid as
`pid_t`; the other five pid-taking declarations take it as C `long`.  Values
inside the `pid_t` range survive the narrowing unchanged, while a value
representable as `long` but outside the `pid_t` range (for example `2^31`)
is accepted by the `long`-typed operations yet changes value when narrowed
to `pid_t` for the snapshot lookup. -/
theorem pid_param_narrowing :
    ((openbsd_h_decls.filter
        (fun d => d.pidParam == some CType.c_pid_t)).map (fun d => d.name) =
      ["psutil_kinfo_proc"]) ∧
    ((openbsd_h_decls.filter
        (fun d => d.pidParam == some CType.c_long)).map (fun d => d.name) =
      ["kinfo_getfile", "_psutil_get_argv", "psutil_get_cmdline",
       "psutil_pid_exists", "psutil_raise_ad_or_nsp"]) ∧
    (∀ v : Int, inPidTRange v → narrowToPidT v = v) ∧
    (inLongRange (2 ^ 31) ∧ ¬ inPidTRange (2 ^ 31) ∧
      narrowToPidT (2 ^ 31) ≠ (2 ^ 31 : Int)) := by
  refine ⟨by decide, by decide, ?_, by decide⟩
  intro v hv
  obtain ⟨h1, h2⟩ := hv
  unfold PID_T_MIN at h1
  unfold PID_T_MAX at h2
  unfold narrowToPidT
  norm_num at h1 h2 ⊢
  omega

/-- Witness for C10: a pid value inside the `pid_t` range is unchanged by
the narrowing. -/
theorem pid_param_narrowing_witness :
    narrowToPidT 100 = 100 :=
  pid_param_narrowing.2.2.1 100 (by decide)
